import Mathlib

/-!
# Verification of the series-tracking CRUD API

Shallow embedding of the repository `Akshaychdev/RESTapi-app-series`:
a per-user CRUD API over `Series` records with many-to-many `Tag` and
`Character` associations.

The `Series` model fields are taken from
`app/core/migrations/0004_series.py`:
`title : CharField(max_length=255)`, `status : BooleanField(default=False)`,
`watch_rate : IntegerField()` (no range validators),
`rating : DecimalField(decimal_places=2, max_digits=4)`,
`link : CharField(blank=True, max_length=255)`,
`characters`, `tags` many-to-many, `user` foreign key.

The viewset and `SeriesSerializer` sources are not part of the provided
tree (only their tests and the migration are), so the endpoint behaviour
is modelled from the specification, as noted on each definition.

Decimal ratings are represented as integers in hundredths (two decimal
places, at most four digits, so an absolute value of at most 9999
hundredths).
-/

namespace SeriesApp

/-- A tag record (`core.Tag`): server-assigned id, a name, and an owner. -/
structure Tag where
  id : Nat
  name : String
  user : Nat
deriving DecidableEq, Repr

/-- A character record (`core.Character`): id, name, and owner. -/
structure Character where
  id : Nat
  name : String
  user : Nat
deriving DecidableEq, Repr

/-- A stored `Series` row, fields as declared in migration `0004_series`.
`rating` is the decimal value in hundredths; `tags` and `characters` hold
the ids of associated rows (many-to-many, kept without duplicates). -/
structure SeriesRecord where
  id : Nat
  title : String
  status : Bool
  watch_rate : Int
  rating : Int
  link : String
  user : Nat
  tags : List Nat
  characters : List Nat
deriving DecidableEq, Repr

/-- The relational store: the series table, the tag and character tables,
and the next auto-increment id for series. -/
structure DB where
  serieses : List SeriesRecord
  tagRows : List Tag
  charRows : List Character
  nextId : Nat
deriving Repr

/-- An inbound JSON payload for create/update of a series; `none` means
the field is absent from the payload. -/
structure SeriesPayload where
  title : Option String
  status : Option Bool
  watch_rate : Option Int
  rating : Option Int
  link : Option String
  tags : Option (List Nat)
  characters : Option (List Nat)
deriving DecidableEq, Repr

/-- `rating` fits `DecimalField(decimal_places=2, max_digits=4)`:
at most four digits in total, i.e. at most 9999 hundredths in absolute
value. -/
def ratingValid (r : Int) : Bool :=
  r.natAbs ≤ 9999

/-- A tag id refers to a tag row owned by user `u`. -/
def DB.ownsTag (db : DB) (u : Nat) (tid : Nat) : Bool :=
  db.tagRows.any fun t => t.id = tid && t.user = u

/-- A character id refers to a character row owned by user `u`. -/
def DB.ownsChar (db : DB) (u : Nat) (cid : Nat) : Bool :=
  db.charRows.any fun c => c.id = cid && c.user = u

/-- Modelled from the spec: validation of a full payload (POST create and
PUT full update) by the missing `SeriesSerializer`. `title`, `watch_rate`
and `rating` are required; `title` is a non-blank string of length at most
255 (`CharField(max_length=255)`); `rating` must fit the decimal field;
`link` is optional (`blank=True`) but bounded; `tags` and `characters`
are optional lists of ids of rows owned by the caller. No range check is
applied to `watch_rate`, matching the migration's bare `IntegerField()`. -/
def validFull (db : DB) (u : Nat) (p : SeriesPayload) : Bool :=
  (match p.title with
   | some t => t ≠ "" && t.length ≤ 255
   | none => false) &&
  p.watch_rate.isSome &&
  (match p.rating with
   | some r => ratingValid r
   | none => false) &&
  (match p.link with
   | some l => l.length ≤ 255
   | none => true) &&
  (p.tags.getD []).all (db.ownsTag u) &&
  (p.characters.getD []).all (db.ownsChar u)

/-- Modelled from the spec: validation of a PATCH partial payload by the
missing `SeriesSerializer`: each field that is supplied must satisfy the
same constraint as in `validFull`; absent fields are not checked. -/
def validPatchFields (db : DB) (u : Nat) (p : SeriesPayload) : Bool :=
  (match p.title with
   | some t => t ≠ "" && t.length ≤ 255
   | none => true) &&
  (match p.rating with
   | some r => ratingValid r
   | none => true) &&
  (match p.link with
   | some l => l.length ≤ 255
   | none => true) &&
  (p.tags.getD []).all (db.ownsTag u) &&
  (p.characters.getD []).all (db.ownsChar u)

/-- Modelled from the spec: the missing list endpoint
(`GET /api/series/serieses/`). Unauthenticated requests get 401; an
authenticated request returns 200 with exactly the caller's series,
ordered by descending id (`order_by('-id')`). -/
def listSeries (db : DB) (auth : Option Nat) : Nat × List SeriesRecord :=
  match auth with
  | none => (401, [])
  | some u =>
      (200, (db.serieses.filter fun s => s.user = u).insertionSort
        fun a b => b.id ≤ a.id)

/-- Modelled from the spec: the missing detail endpoint
(`GET /api/series/serieses/<id>/`). Unauthenticated requests get 401;
the queryset is filtered to the caller's own series, so another user's
record behaves as not found (404). -/
def retrieveSeries (db : DB) (auth : Option Nat) (sid : Nat) :
    Nat × Option SeriesRecord :=
  match auth with
  | none => (401, none)
  | some u =>
      match db.serieses.find? (fun s => s.id = sid && s.user = u) with
      | none => (404, none)
      | some s => (200, some s)

/-- Modelled from the spec: the missing create endpoint (POST).
Unauthenticated requests get 401; an invalid payload gets 400 and leaves
the store unchanged; a valid payload gets 201 together with the new
record's id, the record is stored with the caller as owner, absent
`status` falling back to the model default `False` and absent `link` to
the blank string, and the many-to-many lists are stored as duplicate-free
sets of the supplied ids. -/
def createSeries (db : DB) (auth : Option Nat) (p : SeriesPayload) :
    Nat × Option Nat × DB :=
  match auth with
  | none => (401, none, db)
  | some u =>
      if validFull db u p then
        let r : SeriesRecord :=
          { id := db.nextId
            title := p.title.getD ""
            status := p.status.getD false
            watch_rate := p.watch_rate.getD 0
            rating := p.rating.getD 0
            link := p.link.getD ""
            user := u
            tags := (p.tags.getD []).dedup
            characters := (p.characters.getD []).dedup }
        (201, some db.nextId,
          { db with serieses := r :: db.serieses, nextId := db.nextId + 1 })
      else (400, none, db)

/-- Replace the series with id `sid` by `s'` in the table. -/
def DB.replace (db : DB) (sid : Nat) (s' : SeriesRecord) : DB :=
  { db with serieses := db.serieses.map fun t => if t.id = sid then s' else t }

/-- Modelled from the spec: the missing full-update endpoint (PUT).
All scalar fields are replaced by the payload values (validation makes
the required ones present); a many-to-many field absent from the payload
is cleared, a supplied one is replaced by the listed set. -/
def putSeries (db : DB) (auth : Option Nat) (sid : Nat) (p : SeriesPayload) :
    Nat × DB :=
  match auth with
  | none => (401, db)
  | some u =>
      match db.serieses.find? (fun s => s.id = sid && s.user = u) with
      | none => (404, db)
      | some s =>
          if validFull db u p then
            let s' : SeriesRecord :=
              { s with
                title := p.title.getD ""
                status := p.status.getD false
                watch_rate := p.watch_rate.getD 0
                rating := p.rating.getD 0
                link := p.link.getD ""
                tags := (p.tags.getD []).dedup
                characters := (p.characters.getD []).dedup }
            (200, db.replace sid s')
          else (400, db)

/-- Modelled from the spec: the missing partial-update endpoint (PATCH).
Only the supplied fields are replaced; a supplied `tags` (or
`characters`) list replaces the entire association set, absent ones are
left untouched. -/
def patchSeries (db : DB) (auth : Option Nat) (sid : Nat)
    (p : SeriesPayload) : Nat × DB :=
  match auth with
  | none => (401, db)
  | some u =>
      match db.serieses.find? (fun s => s.id = sid && s.user = u) with
      | none => (404, db)
      | some s =>
          if validPatchFields db u p then
            let s' : SeriesRecord :=
              { s with
                title := p.title.getD s.title
                status := p.status.getD s.status
                watch_rate := p.watch_rate.getD s.watch_rate
                rating := p.rating.getD s.rating
                link := p.link.getD s.link
                tags := (p.tags.map List.dedup).getD s.tags
                characters := (p.characters.map List.dedup).getD s.characters }
            (200, db.replace sid s')
          else (400, db)

/-- Look a series up by id in the store (`Series.objects.get(id=...)`). -/
def DB.findSeries (db : DB) (i : Nat) : Option SeriesRecord :=
  db.serieses.find? fun s => s.id = i

/-! ### Concrete sample data, mirroring the fixtures of
`series/tests/test_series_api.py` -/

/-- Tags owned by user 1, as in `sample_tag`. -/
def tagRows0 : List Tag :=
  [⟨1, "Money Heist", 1⟩, ⟨2, "Sci-Fi", 1⟩, ⟨3, "mafia", 1⟩]

/-- A series owned by user 1 (the fixture of `sample_series`). -/
def series1 : SeriesRecord :=
  ⟨2, "Breaking Bad", true, 5, 800, "", 1, [], []⟩

/-- A series owned by user 2. -/
def series2 : SeriesRecord :=
  ⟨1, "Dark", true, 4, 900, "", 2, [], []⟩

/-- A sample store with one series per user, three tags and one character,
all the tags and the character owned by user 1. -/
def db0 : DB :=
  ⟨[series1, series2], tagRows0, [⟨1, "Berlin", 1⟩], 3⟩

/-! ### Theorems for the claims -/

/-- Membership in the list-endpoint response body. -/
lemma mem_listSeries (db : DB) (u : Nat) (x : SeriesRecord) :
    x ∈ (listSeries db (some u)).2 ↔ x ∈ db.serieses ∧ x.user = u := by
  show x ∈ (db.serieses.filter fun y => y.user = u).insertionSort
      (fun a b => b.id ≤ a.id) ↔ _
  rw [(List.perm_insertionSort _ _).mem_iff, List.mem_filter]
  simp

/-- C1: a series created by user A never appears in the authenticated list
response of a distinct user B; B's list holds exactly B's own series. -/
theorem listSeries_limited_to_user
    (db : DB) (A B : Nat) (s t : SeriesRecord)
    (hAB : A ≠ B) (hs : s ∈ db.serieses) (hA : s.user = A) :
    s ∉ (listSeries db (some B)).2 ∧
    (t ∈ (listSeries db (some B)).2 ↔ t ∈ db.serieses ∧ t.user = B) := by
  refine ⟨fun hmem => ?_, mem_listSeries db B t⟩
  exact hAB (hA ▸ ((mem_listSeries db B s).mp hmem).2)

/-- Witness for C1 on the sample store: user 2's series is absent from
user 1's list, which contains exactly user 1's series. -/
theorem listSeries_limited_to_user_witness :
    (2 : Nat) ≠ 1 ∧ series2 ∈ db0.serieses ∧ series2.user = 2 ∧
    (series2 ∉ (listSeries db0 (some 1)).2 ∧
     (series1 ∈ (listSeries db0 (some 1)).2 ↔
       series1 ∈ db0.serieses ∧ series1.user = 1)) :=
  ⟨by decide, by decide, by decide,
    listSeries_limited_to_user db0 2 1 series2 series1
      (by decide) (by decide) (by decide)⟩

/-- C2: every request to the series resource made without authentication
is answered with status 401, for list, detail, create, full update and
partial update alike. -/
theorem unauthenticated_requests_401
    (db : DB) (sid : Nat) (p : SeriesPayload) :
    (listSeries db none).1 = 401 ∧
    (retrieveSeries db none sid).1 = 401 ∧
    (createSeries db none p).1 = 401 ∧
    (putSeries db none sid p).1 = 401 ∧
    (patchSeries db none sid p).1 = 401 :=
  ⟨rfl, rfl, rfl, rfl, rfl⟩

/-- C7: an authenticated list request succeeds and returns a permutation
of exactly the caller's series, sorted by descending id. -/
theorem listSeries_exact_and_sorted (db : DB) (u : Nat) :
    (listSeries db (some u)).1 = 200 ∧
    (listSeries db (some u)).2.Sorted (fun a b => b.id ≤ a.id) ∧
    ((listSeries db (some u)).2).Perm
      (db.serieses.filter fun s => s.user = u) := by
  refine ⟨rfl, ?_, List.perm_insertionSort _ _⟩
  haveI : IsTotal SeriesRecord (fun a b => b.id ≤ a.id) :=
    ⟨fun a b => Nat.le_total b.id a.id⟩
  haveI : IsTrans SeriesRecord (fun a b => b.id ≤ a.id) :=
    ⟨fun _ _ _ hab hbc => Nat.le_trans hbc hab⟩
  exact List.sorted_insertionSort _ _

/-- C3: an authenticated POST of a valid payload carrying title, status,
watch_rate and rating yields 201, a body holding the new record's id, and
a stored record whose scalar fields equal the payload fields. -/
theorem createSeries_valid_payload
    (db : DB) (u : Nat) (p : SeriesPayload) (t : String) (st : Bool)
    (w r : Int)
    (hv : validFull db u p = true)
    (ht : p.title = some t) (hst : p.status = some st)
    (hw : p.watch_rate = some w) (hr : p.rating = some r) :
    (createSeries db (some u) p).1 = 201 ∧
    (createSeries db (some u) p).2.1 = some db.nextId ∧
    (createSeries db (some u) p).2.2.findSeries db.nextId =
      some { id := db.nextId, title := t, status := st, watch_rate := w,
             rating := r, link := p.link.getD "", user := u,
             tags := (p.tags.getD []).dedup,
             characters := (p.characters.getD []).dedup } := by
  simp [createSeries, hv, DB.findSeries, List.find?, ht, hst, hw, hr]

/-- The payload of `test_create_basic_series` (rating 8.50 is 850
hundredths). -/
def basicPayload : SeriesPayload :=
  ⟨some "12 monkeys", some true, some 5, some 850, none, none, none⟩

/-- A valid payload omitting the `status` field. -/
def noStatusPayload : SeriesPayload :=
  ⟨some "Dark", none, some 4, some 900, none, none, none⟩

/-- Witness for C3: posting the payload of `test_create_basic_series`
to the sample store as user 1. -/
theorem createSeries_valid_payload_witness :
    validFull db0 1 basicPayload = true ∧
    ((createSeries db0 (some 1) basicPayload).1 = 201 ∧
     (createSeries db0 (some 1) basicPayload).2.1 = some db0.nextId ∧
     (createSeries db0 (some 1) basicPayload).2.2.findSeries db0.nextId =
       some { id := db0.nextId, title := "12 monkeys", status := true,
              watch_rate := 5, rating := 850, link := "", user := 1,
              tags := [], characters := [] }) :=
  ⟨by decide,
    createSeries_valid_payload db0 1 basicPayload
      "12 monkeys" true 5 850 (by decide) rfl rfl rfl rfl⟩

/-- C10: a valid authenticated POST whose payload omits `status` stores
the record with `status = false`, the model default of
`BooleanField(default=False)`. -/
theorem createSeries_default_status
    (db : DB) (u : Nat) (p : SeriesPayload)
    (hv : validFull db u p = true) (hst : p.status = none) :
    (createSeries db (some u) p).1 = 201 ∧
    ((createSeries db (some u) p).2.2.findSeries db.nextId).map
      SeriesRecord.status = some false := by
  simp [createSeries, hv, DB.findSeries, List.find?, hst]

/-- Witness for C10: posting a payload without `status` as user 1. -/
theorem createSeries_default_status_witness :
    validFull db0 1 noStatusPayload = true ∧
    noStatusPayload.status = none ∧
    ((createSeries db0 (some 1) noStatusPayload).1 = 201 ∧
     ((createSeries db0 (some 1) noStatusPayload).2.2.findSeries
        db0.nextId).map SeriesRecord.status = some false) :=
  ⟨by decide, rfl,
    createSeries_default_status db0 1 noStatusPayload (by decide) rfl⟩

/-- A create payload whose `watch_rate` is 6, outside the range 1–5. -/
def outOfRangePayload : SeriesPayload :=
  ⟨some "12 monkeys", some true, some 6, some 850, none, none, none⟩

/-- C9 counterexample: the model declares `watch_rate` as a bare
`IntegerField()` with no validators, so a payload with `watch_rate = 6`
is accepted with 201 and the stored record's `watch_rate` is 6, outside
1–5 — refuting both halves of the claim. -/
theorem watchRate_out_of_range_accepted :
    (createSeries db0 (some 1) outOfRangePayload).1 = 201 ∧
    ((createSeries db0 (some 1) outOfRangePayload).2.2.findSeries
      db0.nextId).map SeriesRecord.watch_rate = some 6 ∧
    ¬ (1 ≤ (6 : Int) ∧ (6 : Int) ≤ 5) := by
  decide

/-- C9 amended: `watch_rate` is an unconstrained integer; a payload is
accepted independently of its `watch_rate` value, and the stored value is
whatever the payload supplied. -/
theorem watchRate_unconstrained
    (db : DB) (u : Nat) (p : SeriesPayload) (w w' : Int)
    (hw : p.watch_rate = some w)
    (hv : validFull db u p = true) :
    (createSeries db (some u) p).1 = 201 ∧
    ((createSeries db (some u) p).2.2.findSeries db.nextId).map
      SeriesRecord.watch_rate = some w ∧
    validFull db u { p with watch_rate := some w' } = true := by
  obtain ⟨pt, ps, pw, pr, pl, ptg, pc⟩ := p
  cases hw
  refine ⟨?_, ?_, ?_⟩
  · simp [createSeries, hv]
  · simp [createSeries, hv, DB.findSeries, List.find?]
  · simp only [validFull, Bool.and_eq_true, Option.isSome_some] at hv ⊢
    tauto

/-- Witness for C9's amended theorem at `watch_rate = 6`. -/
theorem watchRate_unconstrained_witness :
    outOfRangePayload.watch_rate = some 6 ∧
    validFull db0 1 outOfRangePayload = true ∧
    ((createSeries db0 (some 1) outOfRangePayload).1 = 201 ∧
     ((createSeries db0 (some 1) outOfRangePayload).2.2.findSeries
        db0.nextId).map SeriesRecord.watch_rate = some 6 ∧
     validFull db0 1 { outOfRangePayload with watch_rate := some 0 } =
       true) :=
  ⟨rfl, by decide,
    watchRate_unconstrained db0 1 outOfRangePayload 6 0 rfl (by decide)⟩

/-- Validity of a full payload does not depend on the order of two tag
ids. -/
lemma validFull_tags_swap (db : DB) (u a b : Nat) (p : SeriesPayload) :
    validFull db u { p with tags := some [b, a] } =
    validFull db u { p with tags := some [a, b] } := by
  obtain ⟨pt, ps, pw, pr, pl, ptg, pc⟩ := p
  simp only [validFull, Option.getD_some, List.all_cons, List.all_nil,
    Bool.and_true]
  rw [Bool.and_comm (db.ownsTag u b) (db.ownsTag u a)]

/-- Deduplication keeps the same set of elements. -/
lemma dedup_toFinset (l : List Nat) : l.dedup.toFinset = l.toFinset := by
  ext x
  simp [List.mem_toFinset, List.mem_dedup]

/-- C6: creating a series with two owned tag ids attaches exactly those
two tags, as a duplicate-free set that is the same for either order of
the ids in the payload. -/
theorem createSeries_tags_unordered
    (db : DB) (u a b : Nat) (p : SeriesPayload)
    (hv : validFull db u { p with tags := some [a, b] } = true) :
    (createSeries db (some u) { p with tags := some [a, b] }).1 = 201 ∧
    (createSeries db (some u) { p with tags := some [b, a] }).1 = 201 ∧
    ((createSeries db (some u) { p with tags := some [a, b] }).2.2.findSeries
      db.nextId).map SeriesRecord.tags = some [a, b].dedup ∧
    ((createSeries db (some u) { p with tags := some [b, a] }).2.2.findSeries
      db.nextId).map SeriesRecord.tags = some [b, a].dedup ∧
    [a, b].dedup.toFinset = ({a, b} : Finset Nat) ∧
    [b, a].dedup.toFinset = ({a, b} : Finset Nat) ∧
    [a, b].dedup.Nodup ∧ [b, a].dedup.Nodup := by
  have hv' : validFull db u { p with tags := some [b, a] } = true :=
    (validFull_tags_swap db u a b p).trans hv
  refine ⟨?_, ?_, ?_, ?_, ?_, ?_, List.nodup_dedup _, List.nodup_dedup _⟩
  · simp [createSeries, hv]
  · simp [createSeries, hv']
  · simp [createSeries, hv, DB.findSeries, List.find?]
  · simp [createSeries, hv', DB.findSeries, List.find?]
  · rw [dedup_toFinset]
    ext x
    simp
  · rw [dedup_toFinset]
    ext x
    simp
    tauto

/-- The two-tag payload of `test_create_series_with_tags`: tags 2
(`Sci-Fi`) and 3 (`18+`-like), rating 5.00 as 500 hundredths. -/
def twoTagPayload : SeriesPayload :=
  ⟨some "How I Met Your Mother", some false, some 3, some 500,
    none, none, none⟩

/-- Witness for C6 with tags 2 and 3 owned by user 1. -/
theorem createSeries_tags_unordered_witness :
    validFull db0 1 { twoTagPayload with tags := some [2, 3] } = true ∧
    ((createSeries db0 (some 1)
        { twoTagPayload with tags := some [2, 3] }).1 = 201 ∧
     (createSeries db0 (some 1)
        { twoTagPayload with tags := some [3, 2] }).1 = 201 ∧
     ((createSeries db0 (some 1)
        { twoTagPayload with tags := some [2, 3] }).2.2.findSeries
          db0.nextId).map SeriesRecord.tags = some [2, 3].dedup ∧
     ((createSeries db0 (some 1)
        { twoTagPayload with tags := some [3, 2] }).2.2.findSeries
          db0.nextId).map SeriesRecord.tags = some [3, 2].dedup ∧
     [2, 3].dedup.toFinset = ({2, 3} : Finset Nat) ∧
     [3, 2].dedup.toFinset = ({2, 3} : Finset Nat) ∧
     ([2, 3] : List Nat).dedup.Nodup ∧ ([3, 2] : List Nat).dedup.Nodup) :=
  ⟨by decide, createSeries_tags_unordered db0 1 2 3 twoTagPayload (by decide)⟩

/-- Finding by id after replacing the record with that id yields the
replacement, provided some record with the id was present. -/
lemma find_id_replace (sid : Nat) (s' : SeriesRecord) (hs' : s'.id = sid) :
    ∀ l : List SeriesRecord, (∃ x ∈ l, x.id = sid) →
      ((l.map fun t => if t.id = sid then s' else t).find?
        fun x => x.id = sid) = some s'
  | [], h => by simp at h
  | y :: ys, h => by
      by_cases hy : y.id = sid
      · simp [List.find?, hy, hs']
      · have hex : ∃ x ∈ ys, x.id = sid := by
          rcases h with ⟨x, hx, hxid⟩
          rcases List.mem_cons.mp hx with he | hm
          · exact absurd (he ▸ hxid) hy
          · exact ⟨x, hm, hxid⟩
        simpa [List.find?, hy] using find_id_replace sid s' hs' ys hex

/-- `DB.findSeries` after `DB.replace` returns the replacement. -/
lemma findSeries_replace (db : DB) (sid : Nat) (s' : SeriesRecord)
    (hs' : s'.id = sid) (hex : ∃ x ∈ db.serieses, x.id = sid) :
    (db.replace sid s').findSeries sid = some s' :=
  find_id_replace sid s' hs' db.serieses hex

/-- C4: an authenticated PUT supplying the scalar fields and a tags list
but no `characters` field leaves the record with no attached characters,
with exactly the listed tags, and with each scalar field equal to the
payload value. -/
theorem putSeries_clears_omitted_characters
    (db : DB) (u sid : Nat) (p : SeriesPayload) (s : SeriesRecord)
    (tl : List Nat) (t : String) (st : Bool) (w r : Int)
    (hfind : db.serieses.find? (fun x => x.id = sid && x.user = u) = some s)
    (hprevT : s.tags ≠ []) (hprevC : s.characters ≠ [])
    (hv : validFull db u p = true)
    (ht : p.title = some t) (hst : p.status = some st)
    (hw : p.watch_rate = some w) (hr : p.rating = some r)
    (htags : p.tags = some tl) (hchars : p.characters = none) :
    (putSeries db (some u) sid p).1 = 200 ∧
    (putSeries db (some u) sid p).2.findSeries sid =
      some { s with
             title := t
             status := st
             watch_rate := w
             rating := r
             link := p.link.getD ""
             tags := tl.dedup
             characters := [] } ∧
    tl.dedup.toFinset = tl.toFinset := by
  have hps := List.find?_some hfind
  have hmem := List.mem_of_find?_eq_some hfind
  simp only [Bool.and_eq_true, decide_eq_true_eq] at hps
  obtain ⟨hsid, _⟩ := hps
  have hstep : putSeries db (some u) sid p =
      (200, db.replace sid { s with
        title := t
        status := st
        watch_rate := w
        rating := r
        link := p.link.getD ""
        tags := tl.dedup
        characters := [] }) := by
    simp [putSeries, hfind, hv, ht, hst, hw, hr, htags, hchars]
  rw [hstep]
  exact ⟨rfl, findSeries_replace db sid _ hsid ⟨s, hmem, hsid⟩,
    dedup_toFinset tl⟩

/-- The fixture of `test_full_update_series`: a series of user 1 with one
tag and one character already attached. -/
def seriesWithAttach : SeriesRecord :=
  ⟨2, "Breaking Bad", true, 5, 800, "", 1, [1], [1]⟩

/-- A store whose first series carries attached tags and characters. -/
def db1 : DB :=
  ⟨[seriesWithAttach, series2], tagRows0, [⟨1, "Berlin", 1⟩], 3⟩

/-- The PUT payload of `test_full_update_series`: scalars plus tag 3,
no `characters` field. -/
def putPayload : SeriesPayload :=
  ⟨some "The office", some false, some 3, some 800, none, some [3], none⟩

/-- Witness for C4 on the attached fixture. -/
theorem putSeries_clears_omitted_characters_witness :
    db1.serieses.find? (fun x => x.id = 2 && x.user = 1) =
      some seriesWithAttach ∧
    seriesWithAttach.tags ≠ [] ∧ seriesWithAttach.characters ≠ [] ∧
    validFull db1 1 putPayload = true ∧
    ((putSeries db1 (some 1) 2 putPayload).1 = 200 ∧
     (putSeries db1 (some 1) 2 putPayload).2.findSeries 2 =
       some { seriesWithAttach with
              title := "The office"
              status := false
              watch_rate := 3
              rating := 800
              link := ""
              tags := [3].dedup
              characters := [] } ∧
     ([3] : List Nat).dedup.toFinset = ([3] : List Nat).toFinset) :=
  ⟨by decide, by decide, by decide, by decide,
    putSeries_clears_omitted_characters db1 1 2 putPayload seriesWithAttach
      [3] "The office" false 3 800 (by decide) (by decide) (by decide)
      (by decide) rfl rfl rfl rfl rfl rfl⟩

/-- C5: an authenticated PATCH whose payload holds a tags list replaces
the record's whole tag set with exactly the listed tags, while every
field absent from the payload keeps its previous value. -/
theorem patchSeries_replaces_tags
    (db : DB) (u sid : Nat) (p : SeriesPayload) (s : SeriesRecord)
    (tl : List Nat)
    (hfind : db.serieses.find? (fun x => x.id = sid && x.user = u) = some s)
    (hv : validPatchFields db u p = true)
    (htags : p.tags = some tl) :
    (patchSeries db (some u) sid p).1 = 200 ∧
    ((patchSeries db (some u) sid p).2.findSeries sid).map
      SeriesRecord.tags = some tl.dedup ∧
    tl.dedup.toFinset = tl.toFinset ∧
    (p.title = none →
      ((patchSeries db (some u) sid p).2.findSeries sid).map
        SeriesRecord.title = some s.title) ∧
    (p.status = none →
      ((patchSeries db (some u) sid p).2.findSeries sid).map
        SeriesRecord.status = some s.status) ∧
    (p.watch_rate = none →
      ((patchSeries db (some u) sid p).2.findSeries sid).map
        SeriesRecord.watch_rate = some s.watch_rate) ∧
    (p.rating = none →
      ((patchSeries db (some u) sid p).2.findSeries sid).map
        SeriesRecord.rating = some s.rating) ∧
    (p.link = none →
      ((patchSeries db (some u) sid p).2.findSeries sid).map
        SeriesRecord.link = some s.link) ∧
    (p.characters = none →
      ((patchSeries db (some u) sid p).2.findSeries sid).map
        SeriesRecord.characters = some s.characters) := by
  have hps := List.find?_some hfind
  have hmem := List.mem_of_find?_eq_some hfind
  simp only [Bool.and_eq_true, decide_eq_true_eq] at hps
  obtain ⟨hsid, _⟩ := hps
  have hstep : patchSeries db (some u) sid p =
      (200, db.replace sid { s with
        title := p.title.getD s.title,
        status := p.status.getD s.status,
        watch_rate := p.watch_rate.getD s.watch_rate,
        rating := p.rating.getD s.rating,
        link := p.link.getD s.link,
        tags := tl.dedup,
        characters := (p.characters.map List.dedup).getD s.characters }) := by
    simp [patchSeries, hfind, hv, htags]
  have hfound := findSeries_replace db sid
    ({ s with
        title := p.title.getD s.title,
        status := p.status.getD s.status,
        watch_rate := p.watch_rate.getD s.watch_rate,
        rating := p.rating.getD s.rating,
        link := p.link.getD s.link,
        tags := tl.dedup,
        characters := (p.characters.map List.dedup).getD s.characters })
    hsid ⟨s, hmem, hsid⟩
  rw [hstep]
  refine ⟨rfl, ?_, dedup_toFinset tl, ?_, ?_, ?_, ?_, ?_, ?_⟩ <;>
    first
      | (intro h;
         simp only [h, Option.getD_none, Option.map_none'] at hfound ⊢;
         simp [hfound])
      | simp [hfound]

/-- The PATCH payload of `test_partial_update_series`: a new title and
tag 3 only. -/
def patchPayload : SeriesPayload :=
  ⟨some "The End of the World", none, none, none, none, some [3], none⟩

/-- Witness for C5: patching the attached fixture with a title and tag 3
replaces the tag set and keeps the unsupplied fields. -/
theorem patchSeries_replaces_tags_witness :
    db1.serieses.find? (fun x => x.id = 2 && x.user = 1) =
      some seriesWithAttach ∧
    validPatchFields db1 1 patchPayload = true ∧
    patchPayload.tags = some [3] ∧
    ((patchSeries db1 (some 1) 2 patchPayload).1 = 200 ∧
     ((patchSeries db1 (some 1) 2 patchPayload).2.findSeries 2).map
        SeriesRecord.tags = some [3].dedup ∧
     ([3] : List Nat).dedup.toFinset = ([3] : List Nat).toFinset ∧
     (patchPayload.title = none →
       ((patchSeries db1 (some 1) 2 patchPayload).2.findSeries 2).map
         SeriesRecord.title = some seriesWithAttach.title) ∧
     (patchPayload.status = none →
       ((patchSeries db1 (some 1) 2 patchPayload).2.findSeries 2).map
         SeriesRecord.status = some seriesWithAttach.status) ∧
     (patchPayload.watch_rate = none →
       ((patchSeries db1 (some 1) 2 patchPayload).2.findSeries 2).map
         SeriesRecord.watch_rate = some seriesWithAttach.watch_rate) ∧
     (patchPayload.rating = none →
       ((patchSeries db1 (some 1) 2 patchPayload).2.findSeries 2).map
         SeriesRecord.rating = some seriesWithAttach.rating) ∧
     (patchPayload.link = none →
       ((patchSeries db1 (some 1) 2 patchPayload).2.findSeries 2).map
         SeriesRecord.link = some seriesWithAttach.link) ∧
     (patchPayload.characters = none →
       ((patchSeries db1 (some 1) 2 patchPayload).2.findSeries 2).map
         SeriesRecord.characters = some seriesWithAttach.characters)) :=
  ⟨by decide, by decide, rfl,
    patchSeries_replaces_tags db1 1 2 patchPayload seriesWithAttach [3]
      (by decide) (by decide) rfl⟩

/-- A payload whose rating, 1000.00, has five digits and so violates
`DecimalField(decimal_places=2, max_digits=4)`. -/
def badPayload : SeriesPayload :=
  ⟨some "12 monkeys", some true, some 5, some 100000, none, none, none⟩

/-- C8: a request carrying a payload that fails validation is answered
with 400 and leaves the store exactly as it was, for create, full update
and partial update alike. -/
theorem malformed_payload_rejected_atomically
    (db : DB) (u sid : Nat) (p q : SeriesPayload) (s : SeriesRecord)
    (hfull : validFull db u p = false)
    (hpart : validPatchFields db u q = false)
    (hfind : db.serieses.find? (fun x => x.id = sid && x.user = u) =
      some s) :
    createSeries db (some u) p = (400, none, db) ∧
    putSeries db (some u) sid p = (400, db) ∧
    patchSeries db (some u) sid q = (400, db) := by
  refine ⟨?_, ?_, ?_⟩
  · simp [createSeries, hfull]
  · simp [putSeries, hfind, hfull]
  · simp [patchSeries, hfind, hpart]

/-- Witness for C8 with an out-of-range rating against the attached
fixture. -/
theorem malformed_payload_rejected_atomically_witness :
    validFull db1 1 badPayload = false ∧
    validPatchFields db1 1 badPayload = false ∧
    db1.serieses.find? (fun x => x.id = 2 && x.user = 1) =
      some seriesWithAttach ∧
    (createSeries db1 (some 1) badPayload = (400, none, db1) ∧
     putSeries db1 (some 1) 2 badPayload = (400, db1) ∧
     patchSeries db1 (some 1) 2 badPayload = (400, db1)) :=
  ⟨by decide, by decide, by decide,
    malformed_payload_rejected_atomically db1 1 2 badPayload badPayload
      seriesWithAttach (by decide) (by decide) (by decide)⟩

end SeriesApp
